import Mathlib

/-!
Vision-guided bot: inter-stage coordination layer.

A shallow embedding of the coordination code of the robot:

* `direction_deciding.cpp`  : `service3_decide_direction`, `service3_thread`
* `red_laser_service.cpp`   : the point hand-off written by `red_laser_detect`
* `motor_control.cpp`       : `MotorDriver::drive`, `motor_control_service`
* `watchdog.cpp`            : `watchdog_service`
* `config_update_service.cpp` : `load_config`, `config_update_service`

C `int` and `time_t` values are only compared and copied by this code, never
added or multiplied, so they are embedded as `Int`.  The program's global
variables and function-local statics are the fields of `Globals`; every
service is a function on `Globals`.
-/

namespace Bot

/-! ## Data model -/

/-- Movement directions, `enum Direction` of `direction_deciding.hpp`. -/
inductive Direction where
  | FORWARD
  | LEFT
  | RIGHT
  | STOP
  deriving DecidableEq, Repr

/-- A detected laser point, `struct Point2D` of `red_laser_service.hpp`. -/
structure Point2D where
  x : Int
  y : Int
  behav : Int
  deriving DecidableEq, Repr

/-- A movement command, `struct MovementCommand` of `direction_deciding.hpp`. -/
structure MovementCommand where
  dir : Direction
  speed_level : Int
  config_behave : Int
  deriving DecidableEq, Repr

/-- Colour thresholds, `struct HSVConfig` of `red_laser_service.hpp`. -/
structure HSVConfig where
  hue_min : Int
  hue_max : Int
  sat_min : Int
  sat_max : Int
  val_min : Int
  val_max : Int
  behaviour : Int
  deriving DecidableEq, Repr

/-- One call of `MotorDriver::drive` as the hardware sees it: the four direction
bits written to `data.values[0..3]`, the `speed` argument and the PWM duty
given to both `gpioPWM` calls. -/
structure DriveCall where
  motor1_forward : Bool
  motor1_backward : Bool
  motor2_forward : Bool
  motor2_backward : Bool
  speed : Int
  duty : Int
  deriving DecidableEq, Repr

/-- The default constructor `HSVConfig()`. -/
def HSVConfig.default : HSVConfig :=
  { hue_min := 20, hue_max := 160, sat_min := 100, sat_max := 255,
    val_min := 200, val_max := 255, behaviour := 1 }

/-! ## Service 3: the decision function -/

/-- The function `service3_decide_direction` of `direction_deciding.cpp`.

The local `MovementCommand cmd;` is declared without an initialiser, so its
three fields start with whatever the stack holds; that content is the
argument `cmd0`.  The body assigns `cmd.dir` and `cmd.speed_level` on every
path and contains no assignment to `cmd.config_behave`. -/
def service3_decide_direction (cmd0 : MovementCommand) (pos : Point2D) : MovementCommand :=
  let isLeft : Bool := decide (pos.x < 200)
  let isCenter : Bool := decide (pos.x ≥ 200) && decide (pos.x ≤ 450) && decide (pos.y ≤ 480)
  let isRight : Bool := decide (pos.x > 450)
  let isTop : Bool := decide (pos.y < 400)
  let isBottom : Bool := decide (pos.y > 400)
  let cmd1 : MovementCommand :=
    if isLeft && (isTop || isBottom) then { cmd0 with dir := Direction.LEFT }
    else if isRight && (isTop || isBottom) then { cmd0 with dir := Direction.RIGHT }
    else if isCenter then { cmd0 with dir := Direction.FORWARD }
    else { cmd0 with dir := Direction.STOP }
  if pos.y < 160 then { cmd1 with speed_level := 3 }
  else if pos.y ≤ 320 then { cmd1 with speed_level := 2 }
  else { cmd1 with speed_level := 1 }

/-! ## Shared state -/

/-- The global variables of the program and the function-local statics of its
services.  Three fields record effects on the outside world and are never read
by the code: `kicks` counts the `write(fd, "\0", 1)` calls issued to the
watchdog device, `load_calls` counts the calls of `load_config`, `drives`
lists the calls of `MotorDriver::drive`. -/
structure Globals where
  /-- The global `HSVConfig config` of `red_laser_service.cpp`. -/
  config : HSVConfig
  /-- The global `std::optional<Point2D> latest_laser_point`. -/
  latest_laser_point : Option Point2D
  /-- The global `std::atomic<bool> point_available`. -/
  point_available : Bool
  /-- The global `std::optional<MovementCommand> latest_cmd`. -/
  latest_cmd : Option MovementCommand
  /-- The global `std::atomic<bool> cmd_available`. -/
  cmd_available : Bool
  service1_ok : Bool
  service2_ok : Bool
  service3_ok : Bool
  service4_ok : Bool
  /-- The `static int fd` of `watchdog_service`. -/
  wd_fd : Int
  /-- Number of keep-alive writes sent to the watchdog device so far. -/
  kicks : Nat
  /-- The `static std::time_t last_mod_time` of `config_update_service`. -/
  last_mod_time : Int
  /-- Number of calls of `load_config` so far. -/
  load_calls : Nat
  /-- The `static bool initialized` of `motor_control_service`. -/
  motor_initialized : Bool
  /-- The calls of `MotorDriver::drive` so far, most recent first. -/
  drives : List DriveCall
  deriving DecidableEq, Repr

/-- The state at process start: the initialisers of the globals and statics. -/
def Globals.init : Globals :=
  { config := HSVConfig.default,
    latest_laser_point := none, point_available := false,
    latest_cmd := none, cmd_available := false,
    service1_ok := false, service2_ok := false, service3_ok := false, service4_ok := false,
    wd_fd := -1, kicks := 0, last_mod_time := 0, load_calls := 0,
    motor_initialized := false, drives := [] }

/-- A state in which the watchdog device is open on descriptor 3 and all four
services have reported. -/
def Globals.all_reported : Globals :=
  { Globals.init with
    service1_ok := true, service2_ok := true, service3_ok := true, service4_ok := true,
    wd_fd := 3 }

/-! ## The point hand-off (`red_laser_service.cpp` to `direction_deciding.cpp`) -/

/-- The block of `red_laser_detect` guarded by `point_mutex`: store the point
and raise `point_available`. -/
def publish_point (p : Point2D) (g : Globals) : Globals :=
  { g with latest_laser_point := some p, point_available := true }

/-- The function `red_laser_detect`, with the image processing left out: the
argument is `none` when `latest_frame` is empty, and otherwise the centroids
`(cx, cy)` of the contours that pass the area and `m00` tests, in loop order.
Each centroid is published with the behaviour of the configuration copied at
the start of the call; then `service2_ok` is set. -/
def red_laser_detect (frame : Option (List (Int × Int))) (g : Globals) : Globals :=
  match frame with
  | none => g
  | some centroids =>
    let current_config := g.config
    let g1 := centroids.foldl
      (fun acc c => publish_point { x := c.1, y := c.2, behav := current_config.behaviour } acc) g
    { g1 with service2_ok := true }

/-- The block of `service3_thread` guarded by `point_mutex`: copy the slot into
`pointer_location` and lower `point_available`. -/
def point_critical_section (g : Globals) : Option Point2D × Globals :=
  (g.latest_laser_point, { g with point_available := false })

/-- The consumer side of the point hand-off as `service3_thread` performs it:
nothing is taken while `point_available` is false, otherwise the guarded block
runs.  The first component is the value of `pointer_location`. -/
def take_point (g : Globals) : Option Point2D × Globals :=
  if !g.point_available then (none, g) else point_critical_section g

/-! ## The command hand-off (`direction_deciding.cpp` to `motor_control.cpp`) -/

/-- The block of `service3_thread` guarded by `cmd_mutex`: store the command
and raise `cmd_available`. -/
def publish_cmd (cmd : MovementCommand) (g : Globals) : Globals :=
  { g with latest_cmd := some cmd, cmd_available := true }

/-- The block of `motor_control_service` guarded by `cmd_mutex`: copy the slot
into `new_command` and lower `cmd_available`. -/
def cmd_critical_section (g : Globals) : Option MovementCommand × Globals :=
  (g.latest_cmd, { g with cmd_available := false })

/-- The consumer side of the command hand-off as `motor_control_service`
performs it: nothing is taken while `cmd_available` is false, otherwise the
guarded block runs.  The first component is the value of `new_command`. -/
def take_cmd (g : Globals) : Option MovementCommand × Globals :=
  if !g.cmd_available then (none, g) else cmd_critical_section g

/-- The function `service3_thread` of `direction_deciding.cpp`; `cmd0` is the
uninitialised content of the local of `service3_decide_direction`.  The
`syslog` call has no effect on the state. -/
def service3_thread (cmd0 : MovementCommand) (g : Globals) : Globals :=
  if !g.point_available then { g with service3_ok := true }
  else
    match point_critical_section g with
    | (none, g1) => g1
    | (some pointer_location, g1) =>
      let cmd := service3_decide_direction cmd0 pointer_location
      let g2 := publish_cmd cmd g1
      { g2 with service3_ok := true }

/-! ## Service 4: motor control (`motor_control.cpp`) -/

/-- The method `MotorDriver::drive`: compute the duty from `speed`, give it to
both PWM pins and write the four direction bits.  The `direction` string is
only logged. -/
def MotorDriver.drive (motor1_forward motor1_backward motor2_forward motor2_backward : Bool)
    (speed : Int) (g : Globals) : Globals :=
  let duty : Int :=
    if speed = 3 then 100 else if speed = 2 then 80 else if speed = 1 then 70 else 0
  { g with drives :=
      { motor1_forward := motor1_forward, motor1_backward := motor1_backward,
        motor2_forward := motor2_forward, motor2_backward := motor2_backward,
        speed := speed, duty := duty } :: g.drives }

/-- The local variables of `motor_control_service` that are passed to `drive`. -/
structure MotorLocals where
  motor1_forward : Bool
  motor1_backward : Bool
  motor2_forward : Bool
  motor2_backward : Bool
  speed : Int
  deriving DecidableEq, Repr

/-- The initialisers under the comment `Default state: Stop`. -/
def MotorLocals.stop : MotorLocals :=
  { motor1_forward := false, motor1_backward := false,
    motor2_forward := false, motor2_backward := false, speed := 0 }

/-- The block `if (new_command) ...` of `motor_control_service`, assignment by
assignment.  The test written `new_command->behav` reads the behaviour field of
the command, which `direction_deciding.hpp` declares as `config_behave`; as a
C++ condition it holds when the value is not 0. -/
def motor_interpret (new_command : Option MovementCommand) : MotorLocals :=
  let l := MotorLocals.stop
  match new_command with
  | none => l
  | some c =>
    let l := { l with speed := c.speed_level }
    if c.config_behave ≠ 0 then
      match c.dir with
      | Direction.FORWARD => { l with motor1_forward := true, motor2_forward := true }
      | Direction.LEFT => { l with motor1_backward := false, motor2_forward := true }
      | Direction.RIGHT => { l with motor1_forward := true, motor2_backward := false }
      | Direction.STOP => { l with speed := 0 }
    else
      match c.dir with
      | Direction.FORWARD => { l with motor1_backward := true, motor2_backward := true }
      | Direction.LEFT => { l with motor1_backward := true, motor2_forward := false }
      | Direction.RIGHT => { l with motor1_forward := false, motor2_backward := true }
      | Direction.STOP => { l with speed := 0 }

/-- The part of `motor_control_service` after the driver initialisation. -/
def motor_control_body (g : Globals) : Globals :=
  if !g.cmd_available then
    let g1 := MotorDriver.drive false false false false 0 g
    { g1 with service4_ok := true }
  else
    match cmd_critical_section g with
    | (new_command, g1) =>
      let l := motor_interpret new_command
      let g2 := MotorDriver.drive l.motor1_forward l.motor1_backward
        l.motor2_forward l.motor2_backward l.speed g1
      { g2 with service4_ok := true }

/-- The function `motor_control_service`.  `init_result` is what
`motor_driver_init()` returns if this call reaches it. -/
def motor_control_service (init_result : Bool) (g : Globals) : Globals :=
  if !g.motor_initialized then
    if !init_result then g
    else motor_control_body { g with motor_initialized := true }
  else motor_control_body g

/-- The call that commands zero actuation: no direction bit set, speed 0 and
therefore duty 0. -/
def DriveCall.zero : DriveCall :=
  { motor1_forward := false, motor1_backward := false,
    motor2_forward := false, motor2_backward := false, speed := 0, duty := 0 }

/-! ## The watchdog (`watchdog.cpp`) -/

/-- The flag test at the end of `watchdog_service`: when all four flags are set,
write one keep-alive byte and clear the four flags; otherwise only log. -/
def watchdog_check (g : Globals) : Globals :=
  if g.service1_ok && g.service2_ok && g.service3_ok && g.service4_ok then
    { g with kicks := g.kicks + 1,
             service1_ok := false, service2_ok := false,
             service3_ok := false, service4_ok := false }
  else g

/-- The function `watchdog_service`.  `open_result` is what
`open("/dev/watchdog", O_WRONLY)` returns if this call reaches it (a
descriptor, or a negative value on failure).  The result of the
`WDIOC_SETTIMEOUT` request is only logged. -/
def watchdog_service (open_result : Int) (g : Globals) : Globals :=
  if g.wd_fd = -1 then
    let g1 := { g with wd_fd := open_result }
    if open_result < 0 then g1 else watchdog_check g1
  else watchdog_check g

/-! ## Interleavings of the stages -/

/-- One atomic action on the shared state: a publish by the sensing stage, a
whole call of `red_laser_detect`, or a call of one of the other services. -/
inductive Step where
  | publish (p : Point2D)
  | detect (frame : Option (List (Int × Int)))
  | decide (cmd0 : MovementCommand)
  | actuate (init_result : Bool)
  | watchdog (open_result : Int)

/-- The effect of one action. -/
def Step.apply : Step → Globals → Globals
  | Step.publish p, g => publish_point p g
  | Step.detect frame, g => red_laser_detect frame g
  | Step.decide cmd0, g => service3_thread cmd0 g
  | Step.actuate init_result, g => motor_control_service init_result g
  | Step.watchdog open_result, g => watchdog_service open_result g

/-- The state after a sequence of actions, performed from left to right. -/
def run (steps : List Step) (g : Globals) : Globals :=
  steps.foldl (fun acc st => st.apply acc) g

/-- The point slot is consistent: `point_available` is false, or
`latest_laser_point` holds a value. -/
def point_slot_ok (g : Globals) : Bool :=
  !g.point_available || g.latest_laser_point.isSome

/-! ## Configuration reload (`config_update_service.cpp`) -/

/-- The operations of the JSON library that `load_config` calls, on a document
type `J`.  Each returns `none` where the library throws. -/
structure JsonLib (J : Type) where
  /-- The call `j.at(key)`. -/
  atKey : J → String → Option J
  /-- The call `j[i]` on a non-const value. -/
  index : J → Nat → Option J
  /-- The implicit conversion of a value to `int`. -/
  toInt : J → Option Int

/-- The configuration file as the program sees it during one call. -/
structure ConfigFile (J : Type) where
  /-- The field `st_mtime` filled in by `stat(CONFIG_FILE, &file_stat)`, or
  `none` when `stat` does not return 0. -/
  st_mtime : Option Int
  /-- The document that `file >> json_instance` reads, or `none` when the
  extraction throws (the bytes do not start with a valid JSON document, or the
  file cannot be opened).  Bytes after a complete document are not read. -/
  json : Option J

/-- How a call ends: by returning to its caller, or by an exception leaving it. -/
inductive Outcome where
  | returned
  | threw
  deriving DecidableEq, Repr

/-- Reading of one bound, `l1[i]` or `u1[i]`, converted to `int`. -/
def read_bound {J : Type} (lib : JsonLib J) (a : J) (i : Nat) : Option Int :=
  (lib.index a i).bind lib.toInt

/-- The statements of `load_config` from `file >> json_instance` up to the
`syslog` call: they fill the local `new_config` and touch no global.  The
result is `none` when one of them throws. -/
def load_config_read {J : Type} (lib : JsonLib J) (file : ConfigFile J) : Option HSVConfig := do
  let json_instance ← file.json
  let colour ← lib.atKey json_instance "colour"
  let l1 ← lib.atKey colour "lower"
  let u1 ← lib.atKey colour "upper"
  let b ← lib.atKey colour "behaviour"
  let hue_min ← read_bound lib l1 0
  let sat_min ← read_bound lib l1 1
  let val_min ← read_bound lib l1 2
  let hue_max ← read_bound lib u1 0
  let sat_max ← read_bound lib u1 1
  let val_max ← read_bound lib u1 2
  let behaviour ← lib.toInt b
  pure { hue_min := hue_min, hue_max := hue_max, sat_min := sat_min, sat_max := sat_max,
         val_min := val_min, val_max := val_max, behaviour := behaviour }

/-- The function `load_config`: read the file into `new_config`; only then, under
`config_mutex`, assign `config = new_config`.  An exception thrown while
reading leaves the function before the assignment; the function contains no
`try`. -/
def load_config {J : Type} (lib : JsonLib J) (file : ConfigFile J) (g : Globals) :
    Globals × Outcome :=
  let g0 := { g with load_calls := g.load_calls + 1 }
  match load_config_read lib file with
  | none => (g0, Outcome.threw)
  | some new_config => ({ g0 with config := new_config }, Outcome.returned)

/-- The function `config_update_service`: when `stat` succeeds and the file's
`st_mtime` differs from the static `last_mod_time`, first store the new time,
then call `load_config`.  The function contains no `try`, so an exception
from `load_config` leaves it as well. -/
def config_update_service {J : Type} (lib : JsonLib J) (file : ConfigFile J) (g : Globals) :
    Globals × Outcome :=
  match file.st_mtime with
  | some st_mtime =>
    if st_mtime ≠ g.last_mod_time then
      load_config lib file { g with last_mod_time := st_mtime }
    else (g, Outcome.returned)
  | none => (g, Outcome.returned)

/-- The sources on which the reading part of `load_config` raises at one of
the points the specification lists, for a given library behaviour: the
extraction throws, or `at` throws on one of "colour", "lower", "upper",
"behaviour", or one of the three lower or three upper bounds cannot be read
because `operator[]` or the conversion to `int` throws. -/
def malformed {J : Type} (lib : JsonLib J) (file : ConfigFile J) : Bool :=
  match file.json with
  | none => true
  | some json_instance =>
    match lib.atKey json_instance "colour" with
    | none => true
    | some colour =>
      match lib.atKey colour "lower", lib.atKey colour "upper", lib.atKey colour "behaviour" with
      | some l1, some u1, some _ =>
        (read_bound lib l1 0).isNone || (read_bound lib l1 1).isNone
          || (read_bound lib l1 2).isNone || (read_bound lib u1 0).isNone
          || (read_bound lib u1 1).isNone || (read_bound lib u1 2).isNone
      | _, _, _ => true

/-- Repeated calls of `config_update_service` on the same file; the outcome
list has one entry per call, most recent first. -/
def config_update_service_repeat {J : Type} (lib : JsonLib J) (file : ConfigFile J) :
    Nat → Globals → Globals × List Outcome
  | 0, g => (g, [])
  | n + 1, g =>
    let r := config_update_service_repeat lib file n g
    let r1 := config_update_service lib file r.1
    (r1.1, r1.2 :: r.2)

/-! ### JSON documents and the library's operations on them -/

/-- JSON documents as the library holds them after parsing.  `int n` is a
number written without fraction or exponent, `float q` any other number; an
object lists each of its keys once. -/
inductive Json where
  | null
  | bool (b : Bool)
  | int (n : Int)
  | float (q : ℚ)
  | str (s : String)
  | arr (xs : List Json)
  | obj (kvs : List (String × Json))

/-- The value an `int` holds after a `static_cast<int>` from a wider integer:
the argument reduced modulo 2^32 into the range of `int`. -/
def wrap_int32 (n : Int) : Int :=
  (n + 2147483648) % 4294967296 - 2147483648

/-- Member access by key, the library's `at(key)`: defined on objects that have
the key; every other case throws. -/
def Json.atKey : Json → String → Option Json
  | Json.obj kvs, key => kvs.lookup key
  | _, _ => none

/-- Element access by position, the library's `operator[]` on a non-const
value: an array yields its element, or `null` past its end; `null` yields
`null`; every other kind throws. -/
def Json.index : Json → Nat → Option Json
  | Json.arr xs, i => some (xs.getD i Json.null)
  | Json.null, _ => some Json.null
  | _, _ => none

/-- Conversion to `int`, the library's `get<int>()`: an integer is narrowed to
32 bits, any other number is truncated towards zero, a boolean gives 0 or 1;
null, strings, arrays and objects throw.  (For a number whose truncation is
outside the range of `int` the C++ conversion is undefined; here it is
narrowed like an integer.) -/
def Json.toInt : Json → Option Int
  | Json.int n => some (wrap_int32 n)
  | Json.float q => some (wrap_int32 (Int.tdiv q.num q.den))
  | Json.bool b => some (if b then 1 else 0)
  | _ => none

/-- The library interface on `Json`. -/
def Json.lib : JsonLib Json :=
  { atKey := Json.atKey, index := Json.index, toInt := Json.toInt }

/-- A well-formed configuration document. -/
def Json.sample : Json :=
  Json.obj [("colour", Json.obj
    [("lower", Json.arr [Json.int 0, Json.int 120, Json.int 180]),
     ("upper", Json.arr [Json.int 10, Json.int 255, Json.int 255]),
     ("behaviour", Json.int 0)])]

/-- A document whose "upper" array has only two entries. -/
def Json.short_upper : Json :=
  Json.obj [("colour", Json.obj
    [("lower", Json.arr [Json.int 0, Json.int 120, Json.int 180]),
     ("upper", Json.arr [Json.int 10, Json.int 255]),
     ("behaviour", Json.int 0)])]

/-- A file with a fresh time stamp holding the well-formed document. -/
def ConfigFile.good : ConfigFile Json :=
  { st_mtime := some 5, json := some Json.sample }

/-- A file with a fresh time stamp whose "upper" array is one entry short. -/
def ConfigFile.broken : ConfigFile Json :=
  { st_mtime := some 5, json := some Json.short_upper }

/-- A file with a fresh time stamp whose bytes are not valid JSON. -/
def ConfigFile.not_json : ConfigFile Json :=
  { st_mtime := some 5, json := none }

/-- A document whose first lower bound is the number 20.5. -/
def Json.float_bound : Json :=
  Json.obj [("colour", Json.obj
    [("lower", Json.arr [Json.float (mkRat 41 2), Json.int 120, Json.int 180]),
     ("upper", Json.arr [Json.int 10, Json.int 255, Json.int 255]),
     ("behaviour", Json.int 0)])]

/-- A file with a fresh time stamp whose first lower bound is 20.5. -/
def ConfigFile.float_bound : ConfigFile Json :=
  { st_mtime := some 5, json := some Json.float_bound }

/-- The value is an integer number. -/
def Json.is_integer : Json → Bool
  | Json.int _ => true
  | _ => false

/-- The value is a number or a boolean. -/
def Json.is_number_or_bool : Json → Bool
  | Json.int _ => true
  | Json.float _ => true
  | Json.bool _ => true
  | _ => false

/-- The entry written at position `i` of an array; `none` when the array is
shorter or the value is not an array. -/
def Json.entry : Json → Nat → Option Json
  | Json.arr xs, i => xs[i]?
  | _, _ => none

/-- The bound at position `i` of `a` is absent, or is not of an accepted kind. -/
def Json.bad_bound (accepted : Json → Bool) (a : Json) (i : Nat) : Bool :=
  match a.entry i with
  | none => true
  | some v => !accepted v

/-- A malformed source, as a condition on the content of the file alone: no
JSON document can be read from it, or the entry "colour", or one of its entries
"lower", "upper", "behaviour", is missing, or one of the three lower or three
upper bounds is absent or not of an accepted kind. -/
def ConfigFile.malformed_content (accepted : Json → Bool) (file : ConfigFile Json) : Bool :=
  match file.json with
  | none => true
  | some (Json.obj kvs) =>
    match kvs.lookup "colour" with
    | some (Json.obj cs) =>
      match cs.lookup "lower", cs.lookup "upper", cs.lookup "behaviour" with
      | some l1, some u1, some _ =>
        Json.bad_bound accepted l1 0 || Json.bad_bound accepted l1 1
          || Json.bad_bound accepted l1 2 || Json.bad_bound accepted u1 0
          || Json.bad_bound accepted u1 1 || Json.bad_bound accepted u1 2
      | _, _, _ => true
    | _ => true
  | some _ => true

/-- The state after the first successful load of `ConfigFile.good`. -/
def Globals.loaded : Globals :=
  (config_update_service Json.lib ConfigFile.good Globals.init).1

/-- A state in which a STOP command with speed level 3 and behaviour 1 is
pending and the motor driver is not yet initialised. -/
def Globals.stop_pending : Globals :=
  publish_cmd { dir := Direction.STOP, speed_level := 3, config_behave := 1 } Globals.init

/-! ## General facts about the decision function -/

/-- The direction chosen by `service3_decide_direction`, as a cascade on the
coordinates; it does not depend on the prior content of the local. -/
theorem decide_dir_eq (cmd0 : MovementCommand) (pos : Point2D) :
    (service3_decide_direction cmd0 pos).dir =
      if pos.x < 200 ∧ pos.y ≠ 400 then Direction.LEFT
      else if pos.x > 450 ∧ pos.y ≠ 400 then Direction.RIGHT
      else if 200 ≤ pos.x ∧ pos.x ≤ 450 ∧ pos.y ≤ 480 then Direction.FORWARD
      else Direction.STOP := by
  have hy : (pos.y < 400 ∨ pos.y > 400) ↔ pos.y ≠ 400 := by omega
  have hd : ∀ c : MovementCommand, (if pos.y < 160 then { c with speed_level := 3 }
      else if pos.y ≤ 320 then { c with speed_level := 2 }
      else ({ c with speed_level := 1 } : MovementCommand)).dir = c.dir := by
    intro c; split_ifs <;> rfl
  unfold service3_decide_direction
  simp only [hd]
  simp only [Bool.and_eq_true, Bool.or_eq_true, decide_eq_true_eq, hy, ge_iff_le, gt_iff_lt]
  split_ifs <;> first | rfl | omega

/-- The speed level chosen by `service3_decide_direction`. -/
theorem decide_speed_eq (cmd0 : MovementCommand) (pos : Point2D) :
    (service3_decide_direction cmd0 pos).speed_level =
      if pos.y < 160 then 3 else if pos.y ≤ 320 then 2 else 1 := by
  unfold service3_decide_direction
  simp only
  split_ifs <;> rfl

/-- The field `config_behave` of the result is the prior content of the local. -/
theorem decide_behave_eq (cmd0 : MovementCommand) (pos : Point2D) :
    (service3_decide_direction cmd0 pos).config_behave = cmd0.config_behave := by
  unfold service3_decide_direction
  simp only
  split_ifs <;> rfl

/-! ## Properties of the decision function -/

/-- C1: for every integer point `(x, y)` the direction is LEFT if `x < 200` and
`y ≠ 400`, otherwise RIGHT if `x > 450` and `y ≠ 400`, otherwise FORWARD if
`200 ≤ x ≤ 450` and `y ≤ 480`, otherwise STOP.  In particular every point with
`200 ≤ x ≤ 450` and `y > 480` gives STOP, as does every point with `x < 200` or
`x > 450` on the line `y = 400`; and `(100,100)` gives LEFT, `(300,200)` FORWARD,
`(500,500)` RIGHT, `(300,490)` STOP. -/
theorem C1_direction_cascade (cmd0 : MovementCommand) (x y b : Int) :
    (service3_decide_direction cmd0 ⟨x, y, b⟩).dir =
        (if x < 200 ∧ y ≠ 400 then Direction.LEFT
         else if x > 450 ∧ y ≠ 400 then Direction.RIGHT
         else if 200 ≤ x ∧ x ≤ 450 ∧ y ≤ 480 then Direction.FORWARD
         else Direction.STOP)
    ∧ (∀ (i : Fin 251) (n : Nat),
        (service3_decide_direction cmd0 ⟨200 + (i.val : Int), 481 + (n : Int), b⟩).dir
          = Direction.STOP)
    ∧ (∀ n : Nat,
        (service3_decide_direction cmd0 ⟨199 - (n : Int), 400, b⟩).dir = Direction.STOP
        ∧ (service3_decide_direction cmd0 ⟨451 + (n : Int), 400, b⟩).dir = Direction.STOP)
    ∧ (service3_decide_direction cmd0 ⟨100, 100, b⟩).dir = Direction.LEFT
    ∧ (service3_decide_direction cmd0 ⟨300, 200, b⟩).dir = Direction.FORWARD
    ∧ (service3_decide_direction cmd0 ⟨500, 500, b⟩).dir = Direction.RIGHT
    ∧ (service3_decide_direction cmd0 ⟨300, 490, b⟩).dir = Direction.STOP := by
  refine ⟨decide_dir_eq cmd0 ⟨x, y, b⟩, ?_, ?_, ?_, ?_, ?_, ?_⟩
  · intro i n
    have hi := i.isLt
    rw [decide_dir_eq]
    simp only
    split_ifs <;> first | rfl | omega
  · intro n
    constructor <;> rw [decide_dir_eq] <;> simp only <;> split_ifs <;> first | rfl | omega
  all_goals rw [decide_dir_eq]; simp

/-- C2: for every integer point `(x, y)` the speed level is 3 if `y < 160`, 2 if
`160 ≤ y ≤ 320` and 1 otherwise; it is the same for any two points with the
same `y`, whatever their `x`, behaviour and resulting direction, and it is
never 0, also when the direction is STOP (as at `(300, 490)`). -/
theorem C2_speed_by_y_bucket (cmd0 : MovementCommand) (x y b : Int) :
    (service3_decide_direction cmd0 ⟨x, y, b⟩).speed_level =
        (if y < 160 then 3 else if 160 ≤ y ∧ y ≤ 320 then 2 else 1)
    ∧ (∀ (cmd1 : MovementCommand) (x1 b1 : Int),
        (service3_decide_direction cmd1 ⟨x1, y, b1⟩).speed_level
          = (service3_decide_direction cmd0 ⟨x, y, b⟩).speed_level)
    ∧ (service3_decide_direction cmd0 ⟨x, y, b⟩).speed_level ≠ 0
    ∧ ((service3_decide_direction cmd0 ⟨300, 490, b⟩).dir = Direction.STOP
        ∧ (service3_decide_direction cmd0 ⟨300, 490, b⟩).speed_level = 1) := by
  refine ⟨?_, ?_, ?_, ?_, ?_⟩
  · rw [decide_speed_eq]
    simp only
    split_ifs <;> first | rfl | omega
  · intro cmd1 x1 b1
    rw [decide_speed_eq, decide_speed_eq]
  · rw [decide_speed_eq]
    simp only
    split_ifs <;> decide
  · rw [decide_dir_eq]; simp
  · rw [decide_speed_eq]; simp

/-- C3 (evaluation of the code): `service3_decide_direction` never assigns
`config_behave`, so the command keeps the prior content of the uninitialised
local instead of the behaviour of the point.  With that content 0, the point
`(50, 50, behavior = 1)` yields `(LEFT, 3, 0)`, and this is the command that
`service3_thread` places in the command mailbox, also when the point comes
from `red_laser_detect` under the default configuration (behaviour 1). -/
theorem C3_behaviour_not_carried :
    (∀ (cmd0 : MovementCommand) (pos : Point2D),
        (service3_decide_direction cmd0 pos).config_behave = cmd0.config_behave)
    ∧ service3_decide_direction ⟨Direction.STOP, 0, 0⟩ ⟨50, 50, 1⟩ = ⟨Direction.LEFT, 3, 0⟩
    ∧ (service3_thread ⟨Direction.STOP, 0, 0⟩ (publish_point ⟨50, 50, 1⟩ Globals.init)).latest_cmd
        = some ⟨Direction.LEFT, 3, 0⟩
    ∧ (service3_thread ⟨Direction.STOP, 0, 0⟩ (publish_point ⟨50, 50, 1⟩ Globals.init)).cmd_available
        = true
    ∧ (red_laser_detect (some [(50, 50)]) Globals.init).latest_laser_point = some ⟨50, 50, 1⟩
    ∧ (service3_thread ⟨Direction.STOP, 0, 0⟩
        (red_laser_detect (some [(50, 50)]) Globals.init)).latest_cmd
        = some ⟨Direction.LEFT, 3, 0⟩ := by
  refine ⟨decide_behave_eq, ?_, ?_, ?_, ?_, ?_⟩ <;> decide

/-- C10 (the claim fails): at the boundary point `(200, 400)` the direction is
not STOP. -/
theorem C10_boundary_not_stop :
    (service3_decide_direction ⟨Direction.STOP, 0, 0⟩ ⟨200, 400, 1⟩).dir ≠ Direction.STOP := by
  decide

/-- C10 (amended): at the boundary point `(200, 400)` the direction is FORWARD,
since `x = 200` is in the centre band and `y = 400 ≤ 480`. -/
theorem C10_boundary_forward (cmd0 : MovementCommand) (b : Int) :
    (service3_decide_direction cmd0 ⟨200, 400, b⟩).dir = Direction.FORWARD := by
  rw [decide_dir_eq]; simp

/-! ## Properties of the hand-offs and the watchdog -/

/-- The stage `service3_thread` consumes the point slot exactly as `take_point`
describes: what it decides on is the value `take_point` yields, and the state
it continues from is the one `take_point` leaves. -/
theorem service3_thread_take (cmd0 : MovementCommand) (g : Globals) :
    service3_thread cmd0 g =
      match take_point g with
      | (some p, g1) =>
        { publish_cmd (service3_decide_direction cmd0 p) g1 with service3_ok := true }
      | (none, g1) => if g.point_available then g1 else { g1 with service3_ok := true } := by
  unfold service3_thread take_point point_critical_section
  cases hp : g.point_available <;> cases hl : g.latest_laser_point <;> simp [hp, hl]

/-- The stage `motor_control_service`, past its driver initialisation,
consumes the command slot exactly as `take_cmd` describes: the locals it drives
with are computed from the value `take_cmd` yields, and the state it continues
from is the one `take_cmd` leaves. -/
theorem motor_control_body_take (g : Globals) :
    motor_control_body g =
      { MotorDriver.drive (motor_interpret (take_cmd g).1).motor1_forward
          (motor_interpret (take_cmd g).1).motor1_backward
          (motor_interpret (take_cmd g).1).motor2_forward
          (motor_interpret (take_cmd g).1).motor2_backward
          (motor_interpret (take_cmd g).1).speed (take_cmd g).2 with service4_ok := true } := by
  unfold motor_control_body take_cmd
  cases hc : g.cmd_available
  · simp [motor_interpret, MotorLocals.stop]
  · simp

/-- When the driver initialises (or is initialised already) the service runs
its body on the state with `initialized` set. -/
theorem motor_control_service_init (g : Globals) :
    motor_control_service true g = motor_control_body { g with motor_initialized := true } := by
  unfold motor_control_service
  cases hm : g.motor_initialized
  · simp
  · have hg : { g with motor_initialized := true } = g := by
      cases g; simp_all
    simp [hg]

/-- C4: for each of the two single-slot hand-offs, from any prior state, after
two publishes of `v1` then `v2` the consumer's take yields `v2` and lowers the
presence flag, and a second take straight after yields nothing.  The takes are
those of the consumers: in every state `service3_thread` decides on what
`take_point` yields and continues from the state it leaves, and
`motor_control_service` drives with what `take_cmd` yields and continues from
the state it leaves.  So after the two publishes `service3_thread` publishes
the command computed from `v2` with `point_available` lowered, and a second
call changes nothing; `motor_control_service` drives as `v2` says with
`cmd_available` lowered, and a second call drives the stop it issues when no
command is pending. -/
theorem C4_handoff_latest_wins (g : Globals) (p1 p2 : Point2D) (c1 c2 : MovementCommand)
    (cmd0 : MovementCommand) :
    ((take_point (publish_point p2 (publish_point p1 g))).1 = some p2
      ∧ (take_point (publish_point p2 (publish_point p1 g))).2.point_available = false
      ∧ (take_point (take_point (publish_point p2 (publish_point p1 g))).2).1 = none)
    ∧ ((take_cmd (publish_cmd c2 (publish_cmd c1 g))).1 = some c2
      ∧ (take_cmd (publish_cmd c2 (publish_cmd c1 g))).2.cmd_available = false
      ∧ (take_cmd (take_cmd (publish_cmd c2 (publish_cmd c1 g))).2).1 = none)
    ∧ (∀ s : Globals, service3_thread cmd0 s =
        match take_point s with
        | (some p, s1) =>
          { publish_cmd (service3_decide_direction cmd0 p) s1 with service3_ok := true }
        | (none, s1) => if s.point_available then s1 else { s1 with service3_ok := true })
    ∧ (∀ s : Globals, motor_control_body s =
        { MotorDriver.drive (motor_interpret (take_cmd s).1).motor1_forward
            (motor_interpret (take_cmd s).1).motor1_backward
            (motor_interpret (take_cmd s).1).motor2_forward
            (motor_interpret (take_cmd s).1).motor2_backward
            (motor_interpret (take_cmd s).1).speed (take_cmd s).2 with service4_ok := true })
    ∧ (∀ s : Globals,
        motor_control_service true s = motor_control_body { s with motor_initialized := true })
    ∧ (service3_thread cmd0 (publish_point p2 (publish_point p1 g)) =
        { publish_cmd (service3_decide_direction cmd0 p2)
            { publish_point p2 (publish_point p1 g) with point_available := false }
          with service3_ok := true }
      ∧ service3_thread cmd0 (service3_thread cmd0 (publish_point p2 (publish_point p1 g)))
          = service3_thread cmd0 (publish_point p2 (publish_point p1 g)))
    ∧ (motor_control_service true (publish_cmd c2 (publish_cmd c1 g)) =
        { MotorDriver.drive (motor_interpret (some c2)).motor1_forward
            (motor_interpret (some c2)).motor1_backward
            (motor_interpret (some c2)).motor2_forward
            (motor_interpret (some c2)).motor2_backward
            (motor_interpret (some c2)).speed
            { publish_cmd c2 (publish_cmd c1 g) with
              cmd_available := false, motor_initialized := true }
          with service4_ok := true }
      ∧ motor_control_service true
          (motor_control_service true (publish_cmd c2 (publish_cmd c1 g)))
          = { MotorDriver.drive false false false false 0
                (motor_control_service true (publish_cmd c2 (publish_cmd c1 g)))
              with service4_ok := true }) := by
  refine ⟨?_, ?_, service3_thread_take cmd0, motor_control_body_take,
    motor_control_service_init, ⟨?_, ?_⟩, ⟨?_, ?_⟩⟩
  · simp [take_point, publish_point, point_critical_section]
  · simp [take_cmd, publish_cmd, cmd_critical_section]
  · simp [service3_thread, publish_point, point_critical_section]
  · simp [service3_thread, publish_point, point_critical_section, publish_cmd]
  · rw [motor_control_service_init]
    simp [motor_control_body, publish_cmd, cmd_critical_section]
  · rw [motor_control_service_init, motor_control_service_init]
    simp [motor_control_body, publish_cmd, cmd_critical_section, MotorDriver.drive]

/-- C5: with the watchdog device open, one call of `watchdog_service` sends
exactly one kick and clears the four flags when all four are set; when at
least one flag is clear it sends no kick and leaves each of the four flags as
it was. -/
theorem C5_watchdog_tick (open_result : Int) (g : Globals)
    (h : 0 ≤ g.wd_fd ∨ (g.wd_fd = -1 ∧ 0 ≤ open_result)) :
    ((g.service1_ok = true ∧ g.service2_ok = true ∧ g.service3_ok = true ∧ g.service4_ok = true) →
      (watchdog_service open_result g).kicks = g.kicks + 1
      ∧ (watchdog_service open_result g).service1_ok = false
      ∧ (watchdog_service open_result g).service2_ok = false
      ∧ (watchdog_service open_result g).service3_ok = false
      ∧ (watchdog_service open_result g).service4_ok = false)
    ∧ (¬ (g.service1_ok = true ∧ g.service2_ok = true ∧ g.service3_ok = true
          ∧ g.service4_ok = true) →
      (watchdog_service open_result g).kicks = g.kicks
      ∧ (watchdog_service open_result g).service1_ok = g.service1_ok
      ∧ (watchdog_service open_result g).service2_ok = g.service2_ok
      ∧ (watchdog_service open_result g).service3_ok = g.service3_ok
      ∧ (watchdog_service open_result g).service4_ok = g.service4_ok) := by
  have hserv : watchdog_service open_result g = watchdog_check g
      ∨ watchdog_service open_result g = watchdog_check { g with wd_fd := open_result } := by
    unfold watchdog_service
    split_ifs with h1 h2
    · omega
    · exact Or.inr rfl
    · exact Or.inl rfl
  constructor
  · rintro ⟨h1, h2, h3, h4⟩
    rcases hserv with e | e <;> rw [e] <;> simp [watchdog_check, h1, h2, h3, h4]
  · intro hn
    have hc : (g.service1_ok && g.service2_ok && g.service3_ok && g.service4_ok) = false := by
      cases h1 : g.service1_ok <;> cases h2 : g.service2_ok <;> cases h3 : g.service3_ok
        <;> cases h4 : g.service4_ok <;> simp_all
    rcases hserv with e | e <;> rw [e] <;> simp [watchdog_check, hc]

/-- C5 at a concrete state: the device is open on descriptor 3 and all four
services have reported. -/
theorem C5_watchdog_tick_witness :
    (0 ≤ Globals.all_reported.wd_fd)
    ∧ (watchdog_service 0 Globals.all_reported).kicks = 1
    ∧ (watchdog_service 0 Globals.all_reported).service1_ok = false :=
  ⟨by decide,
   ((C5_watchdog_tick 0 Globals.all_reported (Or.inl (by decide))).1 ⟨rfl, rfl, rfl, rfl⟩).1,
   ((C5_watchdog_tick 0 Globals.all_reported (Or.inl (by decide))).1 ⟨rfl, rfl, rfl, rfl⟩).2.1⟩

/-! ## General facts about the configuration reload -/

/-- Binding an optional value to a continuation that always fails, fails. -/
theorem bind_fun_none {α β : Type} (x : Option α) :
    (x.bind fun _ => (none : Option β)) = none := by
  cases x <;> rfl

/-- A malformed source makes the reading part of `load_config` throw. -/
theorem malformed_read_none {J : Type} (lib : JsonLib J) (file : ConfigFile J)
    (h : malformed lib file = true) : load_config_read lib file = none := by
  unfold malformed at h
  unfold load_config_read
  cases hj : file.json with
  | none => rfl
  | some j =>
    rw [hj] at h
    simp only [Option.bind_eq_bind, Option.some_bind] at h ⊢
    cases hc : lib.atKey j "colour" with
    | none => simp only [Option.none_bind]
    | some c =>
      rw [hc] at h
      simp only [Option.some_bind] at h ⊢
      cases hl : lib.atKey c "lower" with
      | none => simp only [Option.none_bind]
      | some l =>
        cases hu : lib.atKey c "upper" with
        | none => simp only [Option.some_bind, Option.none_bind]
        | some u =>
          cases hb : lib.atKey c "behaviour" with
          | none => simp only [Option.some_bind, Option.none_bind]
          | some bv =>
            rw [hl, hu, hb] at h
            simp only [Bool.or_eq_true, Option.isNone_iff_eq_none] at h
            simp only [Option.some_bind]
            rcases h with ((((h | h) | h) | h) | h) | h <;>
              simp only [h, Option.none_bind, bind_fun_none]

/-- When the reading part throws, `load_config` throws and keeps `config`. -/
theorem load_config_of_read_none {J : Type} (lib : JsonLib J) (file : ConfigFile J)
    (g : Globals) (h : load_config_read lib file = none) :
    load_config lib file g = ({ g with load_calls := g.load_calls + 1 }, Outcome.threw) := by
  unfold load_config
  rw [h]

/-- A call with a changed time stamp stores the time stamp and runs `load_config`. -/
theorem config_update_service_changed {J : Type} (lib : JsonLib J) (file : ConfigFile J)
    (g : Globals) (t : Int) (ht : file.st_mtime = some t) (hne : t ≠ g.last_mod_time) :
    config_update_service lib file g = load_config lib file { g with last_mod_time := t } := by
  unfold config_update_service
  rw [ht]
  simp [hne]

/-- A call with an unchanged time stamp returns without any effect. -/
theorem config_update_service_unchanged {J : Type} (lib : JsonLib J) (file : ConfigFile J)
    (g : Globals) (ht : file.st_mtime = some g.last_mod_time) :
    config_update_service lib file g = (g, Outcome.returned) := by
  unfold config_update_service
  rw [ht]
  simp

/-- An exception leaves `config_update_service` exactly when the time stamp has
changed and the reading part of `load_config` throws. -/
theorem config_update_service_threw_iff {J : Type} (lib : JsonLib J) (file : ConfigFile J)
    (g : Globals) :
    (config_update_service lib file g).2 = Outcome.threw ↔
      ∃ t, file.st_mtime = some t ∧ t ≠ g.last_mod_time ∧ load_config_read lib file = none := by
  unfold config_update_service load_config
  cases ht : file.st_mtime with
  | none => simp
  | some t =>
    by_cases hne : t = g.last_mod_time
    · simp [hne]
    · cases hr : load_config_read lib file <;> simp [hne]

/-- The function `load_config` never writes `last_mod_time`. -/
theorem load_config_last_mod_time {J : Type} (lib : JsonLib J) (file : ConfigFile J)
    (g : Globals) : (load_config lib file g).1.last_mod_time = g.last_mod_time := by
  unfold load_config
  cases load_config_read lib file <;> rfl

/-! ## Properties of the configuration reload -/

/-- For every library behaviour: when the source is one on which the reading
part of `load_config` raises at a listed point, the reload is attempted and
leaves the active configuration as it was. -/
theorem reload_keeps_config_of_malformed {J : Type} (lib : JsonLib J) (file : ConfigFile J)
    (g : Globals) (t : Int) (ht : file.st_mtime = some t) (hne : t ≠ g.last_mod_time)
    (hm : malformed lib file = true) :
    (config_update_service lib file g).1.config = g.config
    ∧ (config_update_service lib file g).1.load_calls = g.load_calls + 1
    ∧ (load_config lib file g).1.config = g.config := by
  rw [config_update_service_changed lib file g t ht hne,
    load_config_of_read_none lib file _ (malformed_read_none lib file hm),
    load_config_of_read_none lib file _ (malformed_read_none lib file hm)]
  exact ⟨rfl, rfl, rfl⟩

/-- A bound that is absent, or neither a number nor a boolean, makes its
reading throw. -/
theorem read_bound_of_bad_bound (a : Json) (i : Nat)
    (h : Json.bad_bound Json.is_number_or_bool a i = true) :
    read_bound Json.lib a i = none := by
  unfold Json.bad_bound at h
  cases a with
  | arr xs =>
    simp only [Json.entry] at h
    simp only [read_bound, Json.lib, Json.index, Option.some_bind]
    cases hx : xs[i]? with
    | none =>
      have : xs.getD i Json.null = Json.null := by
        simp [List.getD, hx]
      rw [this]; rfl
    | some v =>
      have : xs.getD i Json.null = v := by
        simp [List.getD, hx]
      rw [this]
      rw [hx] at h
      cases v <;> simp_all [Json.is_number_or_bool, Json.toInt]
  | null => rfl
  | bool b => rfl
  | int n => rfl
  | float q => rfl
  | str s => rfl
  | obj kvs => rfl

/-- A bound that is present and is a number or a boolean is read. -/
theorem read_bound_of_good_bound (a : Json) (i : Nat)
    (h : Json.bad_bound Json.is_number_or_bool a i = false) :
    ∃ n, read_bound Json.lib a i = some n := by
  unfold Json.bad_bound at h
  cases a with
  | arr xs =>
    simp only [Json.entry] at h
    simp only [read_bound, Json.lib, Json.index, Option.some_bind]
    cases hx : xs[i]? with
    | none => rw [hx] at h; cases h
    | some v =>
      have : xs.getD i Json.null = v := by
        simp [List.getD, hx]
      rw [this]
      rw [hx] at h
      cases v <;> simp_all [Json.is_number_or_bool, Json.toInt]
  | null => cases h
  | bool b => cases h
  | int n => cases h
  | float q => cases h
  | str s => cases h
  | obj kvs => cases h

/-- A file whose content is malformed, with numbers and booleans as the
accepted kinds of bound, makes the reading part of `load_config` throw. -/
theorem malformed_content_read_none (file : ConfigFile Json)
    (h : ConfigFile.malformed_content Json.is_number_or_bool file = true) :
    load_config_read Json.lib file = none := by
  apply malformed_read_none
  unfold ConfigFile.malformed_content at h
  unfold malformed
  cases hj : file.json with
  | none => rfl
  | some j =>
    rw [hj] at h
    cases j with
    | obj kvs =>
      simp only [Json.lib, Json.atKey] at h ⊢
      cases hc : kvs.lookup "colour" with
      | none => rfl
      | some c =>
        rw [hc] at h
        cases c with
        | obj cs =>
          simp only [Json.atKey] at h ⊢
          cases hl : cs.lookup "lower" <;> cases hu : cs.lookup "upper"
            <;> cases hb : cs.lookup "behaviour" <;> try rfl
          rename_i l u bv
          rw [hl, hu, hb] at h
          simp only [Bool.or_eq_true] at h ⊢
          have key := fun a i hh => read_bound_of_bad_bound a i hh
          simp only [Json.lib] at key
          rcases h with ((((h | h) | h) | h) | h) | h <;> simp [key _ _ h]
        | null => rfl
        | bool b => rfl
        | int n => rfl
        | float q => rfl
        | str s => rfl
        | arr xs => rfl
    | null => rfl
    | bool b => rfl
    | int n => rfl
    | float q => rfl
    | str s => rfl
    | arr xs => rfl

/-- A file with all four entries, six bounds that are numbers or booleans and
such a behaviour entry is read into a configuration, whatever the numbers. -/
theorem load_config_read_of_well_formed (file : ConfigFile Json) (kvs cs : List (String × Json))
    (bv : Json)
    (hj : file.json = some (Json.obj kvs)) (hc : kvs.lookup "colour" = some (Json.obj cs))
    (hb : cs.lookup "behaviour" = some bv) (hbv : Json.is_number_or_bool bv = true)
    (h : ConfigFile.malformed_content Json.is_number_or_bool file = false) :
    ∃ cfg, load_config_read Json.lib file = some cfg := by
  unfold ConfigFile.malformed_content at h
  rw [hj] at h
  simp only [hc] at h
  cases hl : cs.lookup "lower" with
  | none => simp [hl] at h
  | some l =>
    cases hu : cs.lookup "upper" with
    | none => simp [hl, hu] at h
    | some u =>
      simp only [hl, hu, hb, Bool.or_eq_false_iff] at h
      obtain ⟨⟨⟨⟨⟨h0, h1⟩, h2⟩, h3⟩, h4⟩, h5⟩ := h
      obtain ⟨n0, e0⟩ := read_bound_of_good_bound l 0 h0
      obtain ⟨n1, e1⟩ := read_bound_of_good_bound l 1 h1
      obtain ⟨n2, e2⟩ := read_bound_of_good_bound l 2 h2
      obtain ⟨n3, e3⟩ := read_bound_of_good_bound u 0 h3
      obtain ⟨n4, e4⟩ := read_bound_of_good_bound u 1 h4
      obtain ⟨n5, e5⟩ := read_bound_of_good_bound u 2 h5
      have hbt : ∃ n, Json.toInt bv = some n := by
        cases bv <;> simp_all [Json.is_number_or_bool, Json.toInt]
      obtain ⟨nb, eb⟩ := hbt
      refine ⟨⟨n0, n3, n1, n4, n2, n5, nb⟩, ?_⟩
      unfold load_config_read
      simp only [Json.lib] at e0 e1 e2 e3 e4 e5
      rw [hj]
      simp only [Option.bind_eq_bind, Option.some_bind, Json.lib, Json.atKey, hc, hl, hu, hb,
        e0, e1, e2, e3, e4, e5, eb]
      rfl

/-- C6 (the claim fails): the file whose first lower bound is 20.5 has a bound
that is not an integer, and its time stamp has changed; the reload converts
the bound to 20 and replaces the active configuration. -/
theorem C6_float_bound_replaces_config :
    ConfigFile.malformed_content Json.is_integer ConfigFile.float_bound = true
    ∧ ConfigFile.float_bound.st_mtime = some 5
    ∧ (5 : Int) ≠ Globals.init.last_mod_time
    ∧ (config_update_service Json.lib ConfigFile.float_bound Globals.init).1.config
        ≠ Globals.init.config
    ∧ (config_update_service Json.lib ConfigFile.float_bound Globals.init).1.config.hue_min
        = 20 := by
  decide

/-- C6 (amended): for every active configuration and every source whose time
stamp has changed and whose content is not valid JSON, or lacks a "colour",
"lower", "upper" or "behaviour" entry, or has a bound that is absent or is
neither a number nor a boolean, the reload is attempted and leaves the active
configuration equal to its value before the call, both through
`config_update_service` and through `load_config` itself. -/
theorem C6_rejected_source_keeps_config (file : ConfigFile Json) (g : Globals) (t : Int)
    (ht : file.st_mtime = some t) (hne : t ≠ g.last_mod_time)
    (hm : ConfigFile.malformed_content Json.is_number_or_bool file = true) :
    (config_update_service Json.lib file g).1.config = g.config
    ∧ (config_update_service Json.lib file g).1.load_calls = g.load_calls + 1
    ∧ (load_config Json.lib file g).1.config = g.config := by
  rw [config_update_service_changed Json.lib file g t ht hne,
    load_config_of_read_none Json.lib file _ (malformed_content_read_none file hm),
    load_config_of_read_none Json.lib file _ (malformed_content_read_none file hm)]
  exact ⟨rfl, rfl, rfl⟩

/-- C6 (amended) at a concrete input: after a successful load, a rewritten file
whose "upper" array is one entry short leaves the loaded configuration in
place. -/
theorem C6_rejected_source_keeps_config_witness :
    ({ ConfigFile.broken with st_mtime := some 9 } : ConfigFile Json).st_mtime = some 9
    ∧ (9 : Int) ≠ Globals.loaded.last_mod_time
    ∧ ConfigFile.malformed_content Json.is_number_or_bool
        { ConfigFile.broken with st_mtime := some 9 } = true
    ∧ (config_update_service Json.lib { ConfigFile.broken with st_mtime := some 9 }
        Globals.loaded).1.config = Globals.loaded.config :=
  ⟨rfl, by decide, by decide,
   (C6_rejected_source_keeps_config { ConfigFile.broken with st_mtime := some 9 }
      Globals.loaded 9 rfl (by decide) (by decide)).1⟩

/-- C7 (the claim fails): from the initial state, a file with a fresh time stamp
whose bytes are not valid JSON makes `config_update_service` end by an
exception instead of returning. -/
theorem C7_parse_failure_escapes_example :
    malformed Json.lib ConfigFile.not_json = true
    ∧ (config_update_service Json.lib ConfigFile.not_json Globals.init).2 ≠ Outcome.returned := by
  decide

/-- C7 (amended): for every state and every source whose time stamp has changed
and whose content is malformed, the exception raised inside `load_config`
leaves `config_update_service` as well; the active configuration is as it was
before the call. -/
theorem C7_parse_failure_escapes {J : Type} (lib : JsonLib J) (file : ConfigFile J)
    (g : Globals) (t : Int) (ht : file.st_mtime = some t) (hne : t ≠ g.last_mod_time)
    (hm : malformed lib file = true) :
    (config_update_service lib file g).2 = Outcome.threw
    ∧ (config_update_service lib file g).1.config = g.config := by
  rw [config_update_service_changed lib file g t ht hne,
    load_config_of_read_none lib file _ (malformed_read_none lib file hm)]
  exact ⟨rfl, rfl⟩

/-- C7 (amended) at a concrete input: the file one bound short, from the
initial state. -/
theorem C7_parse_failure_escapes_witness :
    ConfigFile.broken.st_mtime = some 5
    ∧ (5 : Int) ≠ Globals.init.last_mod_time
    ∧ malformed Json.lib ConfigFile.broken = true
    ∧ (config_update_service Json.lib ConfigFile.broken Globals.init).2 = Outcome.threw :=
  ⟨rfl, by decide, by decide,
   (C7_parse_failure_escapes Json.lib ConfigFile.broken Globals.init 5 rfl
      (by decide) (by decide)).1⟩

/-- C8 (the claim fails): from the initial state, where `last_mod_time` is 0, a
malformed file with time stamp 5 leaves `last_mod_time` at 5, and the next
call on the same file does not run `load_config` again. -/
theorem C8_timestamp_recorded_on_failure_example :
    malformed Json.lib ConfigFile.not_json = true
    ∧ (config_update_service Json.lib ConfigFile.not_json Globals.init).1.last_mod_time
        ≠ Globals.init.last_mod_time
    ∧ (config_update_service Json.lib ConfigFile.not_json
        (config_update_service Json.lib ConfigFile.not_json Globals.init).1).1.load_calls
        = (config_update_service Json.lib ConfigFile.not_json Globals.init).1.load_calls := by
  decide

/-- C8 (amended): `config_update_service` stores the new time stamp before it
calls `load_config`, whether or not the reload succeeds: for every state and
every changed source, also one whose parse fails, `last_mod_time` after the
call is the time stamp of the source, and a later call with the same source
time stamp sees the source as unchanged and returns without any effect. -/
theorem C8_timestamp_recorded_before_load {J : Type} (lib : JsonLib J) (file : ConfigFile J)
    (g : Globals) (t : Int) (ht : file.st_mtime = some t) (hne : t ≠ g.last_mod_time) :
    (config_update_service lib file g).1.last_mod_time = t
    ∧ config_update_service lib file (config_update_service lib file g).1
        = ((config_update_service lib file g).1, Outcome.returned) := by
  have h1 : (config_update_service lib file g).1.last_mod_time = t := by
    rw [config_update_service_changed lib file g t ht hne, load_config_last_mod_time]
  refine ⟨h1, ?_⟩
  exact config_update_service_unchanged lib file _ (by rw [h1, ht])

/-- C8 (amended) at a concrete input: the file one bound short, from the
initial state. -/
theorem C8_timestamp_recorded_before_load_witness :
    ConfigFile.broken.st_mtime = some 5
    ∧ (5 : Int) ≠ Globals.init.last_mod_time
    ∧ (config_update_service Json.lib ConfigFile.broken Globals.init).1.last_mod_time = 5 :=
  ⟨rfl, by decide,
   (C8_timestamp_recorded_before_load Json.lib ConfigFile.broken Globals.init 5 rfl
      (by decide)).1⟩

/-- C9: for every state in which the time stamp of the source equals the
recorded `last_mod_time`, `config_update_service` returns without calling
`load_config` and leaves the whole state, so the active configuration, the
recorded time stamp and the count of `load_config` calls, unchanged; any
number of such calls gives the same state as none. -/
theorem C9_unchanged_timestamp_no_reload {J : Type} (lib : JsonLib J) (file : ConfigFile J)
    (g : Globals) (ht : file.st_mtime = some g.last_mod_time) :
    config_update_service lib file g = (g, Outcome.returned)
    ∧ ∀ n : Nat, config_update_service_repeat lib file n g
        = (g, List.replicate n Outcome.returned) := by
  have h1 := config_update_service_unchanged lib file g ht
  refine ⟨h1, ?_⟩
  intro n
  induction n with
  | zero => rfl
  | succ k ih =>
    unfold config_update_service_repeat
    simp only [ih, h1, List.replicate_succ]

/-- C9 at a concrete input: the well-formed file, presented twice more after it
has been loaded. -/
theorem C9_unchanged_timestamp_no_reload_witness :
    ConfigFile.good.st_mtime = some Globals.loaded.last_mod_time
    ∧ config_update_service_repeat Json.lib ConfigFile.good 2 Globals.loaded
        = (Globals.loaded, [Outcome.returned, Outcome.returned]) :=
  ⟨by decide,
   (C9_unchanged_timestamp_no_reload Json.lib ConfigFile.good Globals.loaded (by decide)).2 2⟩

/-! ## Properties of the motor control service -/

/-- With no command taken, or a STOP command, the locals passed to `drive` are
the initial ones: no direction bit and speed 0. -/
theorem motor_interpret_stop (new_command : Option MovementCommand)
    (h : new_command = none ∨ ∃ c, new_command = some c ∧ c.dir = Direction.STOP) :
    motor_interpret new_command = MotorLocals.stop := by
  rcases h with h | ⟨c, h, hd⟩
  · rw [h]; rfl
  · rw [h]
    unfold motor_interpret
    simp only [hd]
    split_ifs <;> rfl

/-- C11: with the motor driver initialised (already, or by this call),
`motor_control_service` issues exactly one `drive` call, and that call
commands zero actuation (the four direction bits false, speed 0, duty 0),
whenever no command is pending (`cmd_available` false, or the slot empty) or
the pending command has direction STOP, whatever speed level and behaviour it
carries; the service then reports `service4_ok`. -/
theorem C11_zero_actuation (init_result : Bool) (g : Globals)
    (hinit : g.motor_initialized = true ∨ init_result = true)
    (hcmd : g.cmd_available = false ∨ g.latest_cmd = none
      ∨ ∃ c, g.latest_cmd = some c ∧ c.dir = Direction.STOP) :
    (motor_control_service init_result g).drives = DriveCall.zero :: g.drives
    ∧ (motor_control_service init_result g).service4_ok = true := by
  have hbody : ∀ g1 : Globals, g1.cmd_available = g.cmd_available →
      g1.latest_cmd = g.latest_cmd → g1.drives = g.drives →
      (motor_control_body g1).drives = DriveCall.zero :: g.drives
      ∧ (motor_control_body g1).service4_ok = true := by
    intro g1 ha hl hdr
    unfold motor_control_body
    cases hav : g.cmd_available with
    | false =>
      simp [ha, hav, MotorDriver.drive, DriveCall.zero, hdr]
    | true =>
      have hstop : motor_interpret g.latest_cmd = MotorLocals.stop := by
        apply motor_interpret_stop
        rcases hcmd with h | h | h
        · rw [hav] at h; cases h
        · exact Or.inl h
        · exact Or.inr h
      simp [ha, hav, cmd_critical_section, hl, hstop, MotorDriver.drive, DriveCall.zero,
        MotorLocals.stop, hdr]
  unfold motor_control_service
  cases hmi : g.motor_initialized with
  | true => simpa using hbody g rfl rfl rfl
  | false =>
    have hr : init_result = true := by
      rcases hinit with h | h
      · rw [hmi] at h; cases h
      · exact h
    simpa [hr] using hbody { g with motor_initialized := true } rfl rfl rfl

/-- C11 at a concrete state: a STOP command with speed level 3 and behaviour 1
is pending, and the driver initialises during the call. -/
theorem C11_zero_actuation_witness :
    (Globals.stop_pending.motor_initialized = true ∨ true = true)
    ∧ (∃ c, Globals.stop_pending.latest_cmd = some c ∧ c.dir = Direction.STOP)
    ∧ (motor_control_service true Globals.stop_pending).drives = [DriveCall.zero] :=
  ⟨Or.inr rfl, ⟨⟨Direction.STOP, 3, 1⟩, rfl, rfl⟩,
   (C11_zero_actuation true Globals.stop_pending (Or.inr rfl)
      (Or.inr (Or.inr ⟨⟨Direction.STOP, 3, 1⟩, rfl, rfl⟩))).1⟩

/-! ## Properties of the interleavings -/

/-- A publish leaves the point slot consistent. -/
theorem point_slot_ok_publish (p : Point2D) (g : Globals) :
    point_slot_ok (publish_point p g) = true := by
  simp [point_slot_ok, publish_point]

/-- A run of publishes keeps the point slot consistent. -/
theorem point_slot_ok_publishes (behaviour : Int) (centroids : List (Int × Int)) :
    ∀ g : Globals, point_slot_ok g = true →
      point_slot_ok (centroids.foldl
        (fun acc c => publish_point { x := c.1, y := c.2, behav := behaviour } acc) g) = true := by
  induction centroids with
  | nil => intro g hg; exact hg
  | cons c cs ih =>
    intro g _
    rw [List.foldl_cons]
    exact ih _ (point_slot_ok_publish _ g)

/-- A call of `red_laser_detect` keeps the point slot consistent. -/
theorem point_slot_ok_detect (frame : Option (List (Int × Int))) (g : Globals)
    (hg : point_slot_ok g = true) : point_slot_ok (red_laser_detect frame g) = true := by
  cases frame with
  | none => exact hg
  | some centroids =>
    have h := point_slot_ok_publishes g.config.behaviour centroids g hg
    simpa [red_laser_detect, point_slot_ok] using h

/-- A call of `service3_thread` keeps the point slot consistent. -/
theorem point_slot_ok_service3 (cmd0 : MovementCommand) (g : Globals)
    (hg : point_slot_ok g = true) : point_slot_ok (service3_thread cmd0 g) = true := by
  unfold service3_thread point_critical_section
  cases hp : g.point_available <;> cases hl : g.latest_laser_point
    <;> simp_all [point_slot_ok, publish_cmd]

/-- A call of `motor_control_service` does not touch the point slot. -/
theorem motor_control_service_point (init_result : Bool) (g : Globals) :
    (motor_control_service init_result g).point_available = g.point_available
    ∧ (motor_control_service init_result g).latest_laser_point = g.latest_laser_point := by
  unfold motor_control_service motor_control_body cmd_critical_section MotorDriver.drive
  cases g.motor_initialized <;> cases init_result <;> cases g.cmd_available <;> simp

/-- A call of `watchdog_service` does not touch the point slot. -/
theorem watchdog_service_point (open_result : Int) (g : Globals) :
    (watchdog_service open_result g).point_available = g.point_available
    ∧ (watchdog_service open_result g).latest_laser_point = g.latest_laser_point := by
  have hc : ∀ g1 : Globals, (watchdog_check g1).point_available = g1.point_available
      ∧ (watchdog_check g1).latest_laser_point = g1.latest_laser_point := by
    intro g1
    unfold watchdog_check
    split_ifs <;> exact ⟨rfl, rfl⟩
  unfold watchdog_service
  simp only
  split_ifs
  · exact ⟨rfl, rfl⟩
  · exact hc _
  · exact hc _

/-- Every action keeps the point slot consistent. -/
theorem point_slot_ok_step (st : Step) (g : Globals) (hg : point_slot_ok g = true) :
    point_slot_ok (st.apply g) = true := by
  cases st with
  | publish p => exact point_slot_ok_publish p g
  | detect frame => exact point_slot_ok_detect frame g hg
  | decide cmd0 => exact point_slot_ok_service3 cmd0 g hg
  | actuate init_result =>
    have h := motor_control_service_point init_result g
    simp only [point_slot_ok, Step.apply, h.1, h.2] at hg ⊢
    exact hg
  | watchdog open_result =>
    have h := watchdog_service_point open_result g
    simp only [point_slot_ok, Step.apply, h.1, h.2] at hg ⊢
    exact hg

/-- Every sequence of actions keeps the point slot consistent. -/
theorem point_slot_ok_run (steps : List Step) :
    ∀ g : Globals, point_slot_ok g = true → point_slot_ok (run steps g) = true := by
  induction steps with
  | nil => intro g hg; exact hg
  | cons st rest ih =>
    intro g hg
    unfold run
    rw [List.foldl_cons]
    exact ih _ (point_slot_ok_step st g hg)

/-- On a consistent point slot `service3_thread` reports its liveness. -/
theorem service3_thread_reports (cmd0 : MovementCommand) (g : Globals)
    (hg : point_slot_ok g = true) : (service3_thread cmd0 g).service3_ok = true := by
  unfold service3_thread point_critical_section
  cases hp : g.point_available <;> cases hl : g.latest_laser_point
    <;> simp_all [point_slot_ok, publish_cmd]

/-- C12: in every state reached from the initial state by any sequence of
sensing-stage publishes (single ones or whole `red_laser_detect` calls),
decision-stage calls, and also actuation and watchdog calls,
`point_available` is false or `latest_laser_point` holds a value; hence the
copy taken by `service3_thread` once it has seen `point_available` is never
empty, and every call of `service3_thread` from such a state ends with
`service3_ok` true, whether or not a point is pending. -/
theorem C12_decision_stage_always_reports (steps : List Step) (cmd0 : MovementCommand) :
    ((run steps Globals.init).point_available = false
      ∨ ∃ p, (run steps Globals.init).latest_laser_point = some p)
    ∧ ((run steps Globals.init).point_available = false
      ∨ ∃ p, (point_critical_section (run steps Globals.init)).1 = some p)
    ∧ (service3_thread cmd0 (run steps Globals.init)).service3_ok = true := by
  have hok : point_slot_ok (run steps Globals.init) = true :=
    point_slot_ok_run steps Globals.init (by decide)
  have hslot : (run steps Globals.init).point_available = false
      ∨ ∃ p, (run steps Globals.init).latest_laser_point = some p := by
    unfold point_slot_ok at hok
    cases hp : (run steps Globals.init).point_available with
    | false => exact Or.inl rfl
    | true =>
      right
      cases hl : (run steps Globals.init).latest_laser_point with
      | none => simp [hp, hl] at hok
      | some p => exact ⟨p, rfl⟩
  exact ⟨hslot, hslot, service3_thread_reports cmd0 _ hok⟩

end Bot
